import Mathlib

/-!
Verification of the k6 load/performance test scripts and of the workload
execution engine they are written against (the external k6 runtime, modelled
from the specification where its code is not part of this repository).

Sources embedded:
  - `src/restaurant.js`  (restaurant-staff load script)
  - `src/unnamed/part_000` (customer load script + README)
  - `src/unnamed/part_001` (two functional-test scripts)
  - `src/unnamed/part_002` (high-scale restaurant-staff script, executor
    "ramping-order-rate")
-/

namespace K6

/-! ## Metric observations and the Rate metric -/

/-- Modelled from the spec: the engine's Metric Registry holds the stream of
recorded observations of a rate metric as boolean samples ("count of recorded
values where value is truthy, divided by total recorded values").  The engine
itself is the external k6 runtime, not part of this repository; callers in the
scripts are `errors.add(1)` and the `check(...)` calls. -/
def rateValue (obs : List Bool) : ℚ :=
  (obs.count true : ℚ) / (obs.length : ℚ)

/-! ## The Trend metric and percentile evaluation -/

/-- Modelled from the spec: the engine's trend-percentile evaluation — sort
the observations ascending, take the fractional rank `p/100 * (n-1)` and
linearly interpolate between the two surrounding order statistics. -/
def percentile (p : ℚ) (obs : List ℚ) : ℚ :=
  let sorted := obs.insertionSort (fun a b => a ≤ b)
  let n := sorted.length
  if n = 0 then 0
  else
    let rank : ℚ := p / 100 * ((n : ℚ) - 1)
    let i : ℕ := (Int.floor rank).toNat
    let lo := sorted.getD i 0
    let hi := sorted.getD (i + 1) lo
    lo + (rank - (i : ℚ)) * (hi - lo)

/-! ## Threshold expressions -/

/-- Aggregator of a threshold expression, from the spec's grammar
`rate | p(N) | avg | min | max | count`. -/
inductive Aggregator where
  | rate
  | pct (n : ℚ)
  | avg
  | min
  | max
  | count
deriving DecidableEq

/-- Comparator of a threshold expression. -/
inductive Comparator where
  | lt
  | le
  | gt
  | ge
  | eq
deriving DecidableEq

/-- One threshold expression `<aggregator> <comparator> <bound>` bound to a
metric, e.g. `p(95)<500` from the `thresholds` block of `src/restaurant.js`. -/
structure ThresholdExpr where
  agg : Aggregator
  cmp : Comparator
  bound : ℚ
deriving DecidableEq

/-- Modelled from the spec: aggregate value of a (numeric) observation stream
under an aggregator.  Rate treats an observation as truthy when nonzero. -/
def aggValue (a : Aggregator) (obs : List ℚ) : ℚ :=
  match a with
  | .rate => rateValue (obs.map (fun v => decide (v ≠ 0)))
  | .pct n => percentile n obs
  | .avg => obs.sum / (obs.length : ℚ)
  | .min => obs.foldr Min.min 0
  | .max => obs.foldr Max.max 0
  | .count => (obs.length : ℚ)

/-- Apply a comparator. -/
def compareQ (x : ℚ) (c : Comparator) (b : ℚ) : Bool :=
  match c with
  | .lt => decide (x < b)
  | .le => decide (x ≤ b)
  | .gt => decide (b < x)
  | .ge => decide (b ≤ x)
  | .eq => decide (x = b)

/-- Verdict of evaluating one threshold expression against a metric
snapshot. -/
inductive Verdict where
  | passed
  | failed
  | indeterminate
deriving DecidableEq

/-- Modelled from the spec: the engine's Threshold Evaluator during the run.
It "fails closed": an expression referencing a metric with zero observations
is reported indeterminate (not-yet-failing). -/
def evalThreshold (e : ThresholdExpr) (obs : List ℚ) : Verdict :=
  if obs.isEmpty then .indeterminate
  else if compareQ (aggValue e.agg obs) e.cmp e.bound then .passed else .failed

/-- Modelled from the spec: end-of-run threshold evaluation — zero
observations for a declared threshold metric is itself reportable as a
failure condition. -/
def evalThresholdAtEnd (e : ThresholdExpr) (obs : List ℚ) : Verdict :=
  if obs.isEmpty then .failed else evalThreshold e obs

/-- The threshold expression `p(95)<500` declared on `http_req_duration` in
`src/restaurant.js` line 58 (and on `order_processing_time`, with bound 1000,
line 62). -/
def p95lt500 : ThresholdExpr := ⟨.pct 95, .lt, 500⟩

/-- The ten trend observations `100, 200, ..., 1000` (ms) of the spec's
percentile test vector. -/
def decileObs : List ℚ :=
  [100, 200, 300, 400, 500, 600, 700, 800, 900, 1000]

/-! ## Embedding of the scripts' own code -/

/-- An HTTP response as the scripts inspect it: `r.status`,
`r.timings.duration` (ms) and `r.body`. -/
structure Response where
  status : ℕ
  durationMs : ℚ
  body : String

/-- The three boolean checks of `checkResponse` in `src/restaurant.js`
lines 66-71 (`status is 200`, `response time < 500ms`,
`has valid response`). -/
def checkResponseChecks (r : Response) : List Bool :=
  [decide (r.status = 200), decide (r.durationMs < 500),
   decide (0 < r.body.length)]

/-- `checkResponse` of `src/restaurant.js`: the k6 `check` call returns true
iff every individual check passed; on failure the script logs and records
`errors.add(1)`. -/
def checkResponse (r : Response) : Bool :=
  (checkResponseChecks r).all id

/-- The two boolean checks of `validateResponse` in `src/unnamed/part_001`
(second script, lines 195-209), with the default `expectedStatus = 200`. -/
def validateResponseChecks (r : Response) (expectedStatus : ℕ) : List Bool :=
  [decide (r.status = expectedStatus), decide (0 < r.body.length)]

/-- `validateResponse` of `src/unnamed/part_001` (second script). -/
def validateResponse (r : Response) (expectedStatus : ℕ) : Bool :=
  (validateResponseChecks r expectedStatus).all id

/-- A JavaScript value as far as the teardown guards inspect it: absent
(`null`/`undefined`) or a string. -/
inductive JSVal where
  | null
  | str (s : String)
deriving DecidableEq

/-- JavaScript truthiness of a `JSVal`: `null`/`undefined` and the empty
string are falsy. -/
def truthy : JSVal → Bool
  | .null => false
  | .str s => decide (s ≠ "")

/-- String interpolation of a `JSVal` (template literal semantics). -/
def jsValStr : JSVal → String
  | .null => "null"
  | .str s => s

/-- The object returned by each script's `setup`: `{ authToken: ... }`. -/
structure SetupData where
  authToken : JSVal
deriving DecidableEq

/-- `setup` of `src/restaurant.js` lines 84-104: perform the login POST,
and `throw new Error("Login failed")` when `checkResponse` fails; otherwise
return `{ authToken: loginResponse.json("token") }`.  The response and the
token extracted from its JSON body are inputs of the embedding. -/
def setupRestaurant (loginResponse : Response) (token : JSVal) :
    Except String SetupData :=
  if checkResponse loginResponse then .ok ⟨token⟩ else .error "Login failed"

/-- The base URL shared by all scripts. -/
def BASE_URL : String := "http://localhost:8765"

/-- One HTTP request as issued by a teardown: method, url, the
`Authorization` header when present, and the `name` tag when present. -/
structure Request where
  method : String
  url : String
  authHeader : Option String
  tagName : Option String
deriving DecidableEq

/-- The cleanup DELETE request all teardowns issue, given the auth token. -/
def cleanupRequest (token : JSVal) (tagName : Option String) : Request :=
  ⟨"DELETE", BASE_URL ++ "/cleanup", some ("Bearer " ++ jsValStr token), tagName⟩

/-- `teardown` of `src/restaurant.js` lines 187-202: `if (!data?.authToken)
return;` then one `http.del` to `/cleanup` with the bearer token and tag
`{name: "cleanup"}`.  Returns the list of HTTP requests issued. -/
def teardownRestaurant (data : Option SetupData) : List Request :=
  match data with
  | none => []
  | some d =>
    if truthy d.authToken then [cleanupRequest d.authToken (some "cleanup")]
    else []

/-- `teardown` of `src/unnamed/part_000` lines 209-222: `if (!data ||
!data.authToken)` log and return, else one `http.del` to `/cleanup` with the
bearer token, no tags. -/
def teardownCustomer (data : Option SetupData) : List Request :=
  match data with
  | none => []
  | some d =>
    if truthy d.authToken then [cleanupRequest d.authToken none]
    else []

/-- `teardown` of `src/unnamed/part_001` (first script, lines 137-150):
`if (data?.authToken) { http.del(...) }`, no tags. -/
def teardownFunctional (data : Option SetupData) : List Request :=
  match data with
  | none => []
  | some d =>
    if truthy d.authToken then [cleanupRequest d.authToken none]
    else []

/-- Metric names the functional-test script of `src/unnamed/part_001`
(second script) ever records to: the `check(...)` call inside
`validateResponse` feeds the built-in "checks" rate, `errors.add(1)` on its
failure path feeds "errors", and the `expect` assertions of the default
function feed "checks".  The declared `functional_checks` rate (line 157)
has no `.add` call anywhere in the script. -/
def functionalScriptRecordedMetrics : List String := ["checks", "errors"]

/-- The `thresholds` block of the functional-test script
(`src/unnamed/part_001`, lines 188-192): `functional_checks: ["rate>=1"]`,
`errors: ["rate<0.01"]`. -/
def functionalScriptThresholds : List (String × ThresholdExpr) :=
  [("functional_checks", ⟨.rate, .ge, 1⟩), ("errors", ⟨.rate, .lt, 1/100⟩)]

/-! ## Scenario configuration -/

/-- One `{ duration, target }` stage pair of a ramping executor; the duration
is in seconds, the target is a VU count or an arrival rate. -/
structure Stage where
  duration : ℕ
  target : ℕ
deriving DecidableEq

/-- A scenario block as declared in an `options.scenarios` entry of the
scripts.  Fields that a given executor does not use stay at their
defaults. -/
structure ScenarioConfig where
  executor : String
  vus : Option ℕ := none
  durationSec : Option ℕ := none
  startVUs : Option ℕ := none
  stages : List Stage := []
  gracefulRampDownSec : Option ℕ := none
  startRate : Option ℕ := none
  timeUnitSec : Option ℕ := none
  preAllocatedVUs : Option ℕ := none
  maxVUs : Option ℕ := none
  iterations : Option ℕ := none
  maxDurationSec : Option ℕ := none
  tagScenario : Option String := none

/-- `load_test` of `src/restaurant.js` lines 24-34 (identical in
`src/unnamed/part_000`): ramping-vus from 0 through stages
5m→50, 10m→50, 5m→0. -/
def load_test : ScenarioConfig :=
  { executor := "ramping-vus", startVUs := some 0,
    stages := [⟨300, 50⟩, ⟨600, 50⟩, ⟨300, 0⟩],
    gracefulRampDownSec := some 30, tagScenario := some "load" }

/-- `stress_test` of `src/restaurant.js` lines 35-49 (identical in
`src/unnamed/part_000`): ramping-arrival-rate, startRate 10/s,
preAllocatedVUs 50, maxVUs 100, stages 2m→10, 5m→50, 2m→50, 2m→80, 3m→0. -/
def stress_test : ScenarioConfig :=
  { executor := "ramping-arrival-rate", startRate := some 10,
    timeUnitSec := some 1, preAllocatedVUs := some 50, maxVUs := some 100,
    stages := [⟨120, 10⟩, ⟨300, 50⟩, ⟨120, 50⟩, ⟨120, 80⟩, ⟨180, 0⟩],
    tagScenario := some "stress" }

/-- `smoke_test` of `src/restaurant.js` lines 18-23: constant-vus, 1 VU,
1 minute. -/
def smoke_test : ScenarioConfig :=
  { executor := "constant-vus", vus := some 1, durationSec := some 60,
    tagScenario := some "smoke" }

/-- `soak_test` of `src/restaurant.js` lines 50-55: constant-vus, 30 VUs,
2 hours. -/
def soak_test : ScenarioConfig :=
  { executor := "constant-vus", vus := some 30, durationSec := some 7200,
    tagScenario := some "soak" }

/-- `functional_test` of `src/unnamed/part_001` lines 10-17:
shared-iterations, vus 1, iterations 1, maxDuration 1h. -/
def functional_test : ScenarioConfig :=
  { executor := "shared-iterations", vus := some 1, iterations := some 1,
    maxDurationSec := some 3600 }

/-- `stress_test` of `src/unnamed/part_002` lines 40-54: executor named
"ramping-order-rate", startRate 1000/s, preAllocatedVUs 5000, maxVUs 10000,
stages 2m→1000, 5m→5000, 2m→5000, 2m→8000, 3m→0. -/
def stress_test_order : ScenarioConfig :=
  { executor := "ramping-order-rate", startRate := some 1000,
    timeUnitSec := some 1, preAllocatedVUs := some 5000,
    maxVUs := some 10000,
    stages := [⟨120, 1000⟩, ⟨300, 5000⟩, ⟨120, 5000⟩, ⟨120, 8000⟩,
               ⟨180, 0⟩],
    tagScenario := some "stress" }

/-! ## Executor strategies -/

/-- The four executor strategies of the engine. -/
inductive ExecutorKind where
  | constantVUs
  | rampingVUs
  | rampingArrivalRate
  | sharedIterations
deriving DecidableEq

/-- Modelled from the spec: the engine's mapping from the `executor` string
of a scenario block to its strategy.  The engine is the external k6 runtime,
not part of this repository.  Per the spec's design note, the
"ramping-order-rate" name appearing in `src/unnamed/part_002` is treated as
the same Ramping Arrival Rate strategy as "ramping-arrival-rate". -/
def parseExecutor (s : String) : Option ExecutorKind :=
  if s = "constant-vus" then some .constantVUs
  else if s = "ramping-vus" then some .rampingVUs
  else if s = "ramping-arrival-rate" then some .rampingArrivalRate
  else if s = "ramping-order-rate" then some .rampingArrivalRate
  else if s = "shared-iterations" then some .sharedIterations
  else none

/-- Modelled from the spec: the piecewise-linear target curve of a ramping
executor — starting value `v`, then for each `(duration, target)` stage the
linear interpolation from the previous endpoint to `target` over
`duration`; past the last stage the final target holds. -/
def rampingTarget (v : ℚ) : List Stage → ℚ → ℚ
  | [], _ => v
  | s :: rest, t =>
    if t ≤ (s.duration : ℚ) then
      v + ((s.target : ℚ) - v) * t / (s.duration : ℚ)
    else rampingTarget (s.target : ℚ) rest (t - (s.duration : ℚ))

/-- Elapsed time at the start of stage `k` (the sum of the first `k` stage
durations). -/
def boundary (stages : List Stage) (k : ℕ) : ℚ :=
  ((stages.take k).map (fun s => (s.duration : ℚ))).sum

/-- The target value at the start of stage `k` of the curve: the overall
start value for `k = 0`, otherwise the ending target of stage `k-1`. -/
def stageStartTarget (v : ℚ) : List Stage → ℕ → ℚ
  | _, 0 => v
  | [], _ + 1 => v
  | s :: rest, k + 1 => stageStartTarget (s.target : ℚ) rest k

/-- Modelled from the spec: the configured concurrency ceiling of a
scenario — the VU count for constant-VU executors, the maximum of the start
value and the stage targets for ramping-VU executors, the `maxVUs` pool cap
for arrival-rate executors, and the pool size for shared iterations. -/
def configuredCap (c : ScenarioConfig) : ℕ :=
  match parseExecutor c.executor with
  | some .constantVUs => c.vus.getD 0
  | some .rampingVUs =>
    c.stages.foldl (fun m s => Nat.max m s.target) (c.startVUs.getD 0)
  | some .rampingArrivalRate => c.maxVUs.getD 0
  | some .sharedIterations => c.vus.getD 0
  | none => 0

/-- Modelled from the spec: the instantaneous arrival-rate target of an
arrival-rate scenario (defined only for that strategy), as a function of
elapsed time.  Together with `configuredCap` this determines the strategy's
scheduling behavior in this model. -/
def arrivalRateTarget (c : ScenarioConfig) (t : ℚ) : Option ℚ :=
  match parseExecutor c.executor with
  | some .rampingArrivalRate =>
    some (rampingTarget ((c.startRate.getD 0 : ℕ) : ℚ) c.stages t)
  | _ => none

/-- A sampled scheduling event of a scenario's run: either the scheduler
starts one iteration, or one in-flight iteration completes. -/
inductive SchedEvent where
  | start
  | finish
deriving DecidableEq

/-- Per-scenario executor state: in-flight and completed iteration counts. -/
structure ExecState where
  inFlight : ℕ
  completed : ℕ
deriving DecidableEq

/-- Modelled from the spec: one scheduling step of an executor with
concurrency ceiling `cap`.  A start request is honoured only while the
in-flight count is below the ceiling; a completion retires one in-flight
iteration. -/
def stepExec (cap : ℕ) (s : ExecState) : SchedEvent → ExecState
  | .start => if s.inFlight < cap then ⟨s.inFlight + 1, s.completed⟩ else s
  | .finish => ⟨s.inFlight - 1, s.completed + 1⟩

/-- Run an executor from the idle state through a sampled event sequence. -/
def runExec (cap : ℕ) (events : List SchedEvent) : ExecState :=
  events.foldl (stepExec cap) ⟨0, 0⟩

/-- Modelled from the spec: the shared-iterations loop of a single worker
(`vus = 1`) — pull the next iteration while the shared counter is below the
configured total and the elapsed time is below the maximum duration;
`fuel` bounds the recursion by the total.  Returns the invocation count and
the elapsed time at termination. -/
def sharedIterLoop (total maxDurationMs iterDurMs : ℕ) :
    ℕ → ℕ → ℕ → ℕ × ℕ
  | 0, count, time => (count, time)
  | fuel + 1, count, time =>
    if count < total ∧ time < maxDurationMs then
      sharedIterLoop total maxDurationMs iterDurMs fuel (count + 1)
        (time + iterDurMs)
    else (count, time)

/-- Run the shared-iterations executor with one worker from the initial
state. -/
def sharedIterRun (total maxDurationMs iterDurMs : ℕ) : ℕ × ℕ :=
  sharedIterLoop total maxDurationMs iterDurMs total 0 0

/-! ## Iteration Runner, Scenario Scheduler, Test Lifecycle Controller -/

/-- One metric observation recorded during a run. -/
structure Obs where
  metric : String
  value : ℚ
deriving DecidableEq

/-- Modelled from the spec: the Iteration Runner.  It invokes the journey
callback with the LifecycleContext, catches any raised failure and records
it as an iteration-level error observation instead of propagating it; its
return type carries no failure, only the recorded observations, so nothing
can unwind into scheduler logic. -/
def runIteration (cb : SetupData → Except String (List Obs))
    (ctx : SetupData) : List Obs :=
  match cb ctx with
  | .ok obs => obs
  | .error _ => [⟨"errors", 1⟩]

/-- Modelled from the spec: configuration-level validation — a scenario with
an unknown executor, a malformed (empty) stage list on a ramping executor, or
a non-positive rate/target/pool is a ConfigurationError. -/
def validConfig (c : ScenarioConfig) : Bool :=
  match parseExecutor c.executor with
  | none => false
  | some .constantVUs => decide (0 < c.vus.getD 0)
  | some .rampingVUs =>
    decide (c.stages ≠ [] ∧ ∀ s ∈ c.stages, 0 < s.duration)
  | some .rampingArrivalRate =>
    decide (c.stages ≠ [] ∧ (∀ s ∈ c.stages, 0 < s.duration) ∧
      0 < c.maxVUs.getD 0)
  | some .sharedIterations =>
    decide (0 < c.vus.getD 0 ∧ 0 < c.iterations.getD 0)

/-- Outcome of running one scenario. -/
structure ScenarioResult where
  aborted : Bool
  iterationsStarted : ℕ
  iterationsCompleted : ℕ
  metrics : List Obs
deriving DecidableEq

/-- Modelled from the spec: the Scenario Scheduler's run of one scenario.
A configuration-level fault (invalid config, or setup failure) aborts before
any iteration starts; otherwise every scheduled journey callback is run
through the Iteration Runner and the scheduler keeps starting subsequent
iterations regardless of individual iteration failures. -/
def runScenario (c : ScenarioConfig) (su : Except String SetupData)
    (cbs : List (SetupData → Except String (List Obs))) : ScenarioResult :=
  match su with
  | .error _ => ⟨true, 0, 0, []⟩
  | .ok ctx =>
    if validConfig c then
      ⟨false, cbs.length, cbs.length,
        (cbs.map (fun cb => runIteration cb ctx)).flatten⟩
    else ⟨true, 0, 0, []⟩

/-- States of the Test Lifecycle Controller. -/
inductive LifecycleState where
  | idle
  | settingUp
  | running
  | tearingDown
  | done
  | aborted
deriving DecidableEq

/-- The final report of a run. -/
structure RunReport where
  finalState : LifecycleState
  iterationsStarted : ℕ
  teardownInvoked : Bool
  teardownFailed : Bool
  metrics : List Obs
  verdicts : List (String × Verdict)
deriving DecidableEq

/-- The observation values committed for one metric name in a snapshot. -/
def metricObs (metrics : List Obs) (name : String) : List ℚ :=
  (metrics.filter (fun o => o.metric = name)).map Obs.value

/-- Modelled from the spec: the Test Lifecycle Controller.  Setup runs
exactly once; if it raises, the run is Aborted with no iterations and no
teardown.  Otherwise `n` iterations of the journey run, metrics are
collected, end-of-run threshold verdicts are computed, and teardown runs
exactly once; a teardown failure is recorded but leaves the already-collected
metrics and the verdicts unchanged. -/
def runLifecycle (su : Except String SetupData)
    (journey : SetupData → List Obs) (n : ℕ)
    (thresholds : List (String × ThresholdExpr))
    (td : SetupData → Except String Unit) : RunReport :=
  match su with
  | .error _ => ⟨.aborted, 0, false, false, [], []⟩
  | .ok ctx =>
    let metrics := ((List.range n).map (fun _ => journey ctx)).flatten
    let verdicts := thresholds.map
      (fun p => (p.1, evalThresholdAtEnd p.2 (metricObs metrics p.1)))
    match td ctx with
    | .ok _ => ⟨.done, n, true, false, metrics, verdicts⟩
    | .error _ => ⟨.done, n, true, true, metrics, verdicts⟩

/-- The scheduling behavior of a scenario in this model: its arrival-rate
target curve (when it has one) together with its concurrency ceiling. -/
def schedulingBehavior (c : ScenarioConfig) : (ℚ → Option ℚ) × ℕ :=
  (arrivalRateTarget c, configuredCap c)

/-! # Theorems -/

/-- In a list of booleans, the number of `true`s plus the number of `false`s
is the length. -/
theorem count_true_add_count_false (l : List Bool) :
    l.count true + l.count false = l.length := by
  induction l with
  | nil => rfl
  | cons b t ih =>
    cases b <;> simp [List.count_cons] <;> omega

/-- The ramping target curve at elapsed time 0 equals the start value. -/
theorem rampingTarget_zero (v : ℚ) (stages : List Stage) :
    rampingTarget v stages 0 = v := by
  cases stages with
  | nil => rfl
  | cons s rest =>
    simp only [rampingTarget]
    rw [if_pos (by positivity)]
    ring

/-- Evaluating the curve past the first stage shifts to the tail with the
first target as the new start value. -/
theorem rampingTarget_shift (v : ℚ) (s : Stage) (rest : List Stage)
    (hd : 0 < s.duration) (u : ℚ) (hu : 0 ≤ u) :
    rampingTarget v (s :: rest) ((s.duration : ℚ) + u) =
      rampingTarget (s.target : ℚ) rest u := by
  have hdq : (0 : ℚ) < (s.duration : ℚ) := by exact_mod_cast hd
  rcases eq_or_lt_of_le hu with rfl | hu'
  · rw [add_zero, rampingTarget_zero]
    simp only [rampingTarget]
    rw [if_pos le_rfl]
    field_simp
  · simp only [rampingTarget]
    rw [if_neg (by linarith)]
    rw [show (s.duration : ℚ) + u - (s.duration : ℚ) = u by ring]

/-- Stage boundaries are nonnegative elapsed times. -/
theorem boundary_nonneg (stages : List Stage) (k : ℕ) :
    0 ≤ boundary stages k := by
  unfold boundary
  apply List.sum_nonneg
  intro x hx
  simp only [List.mem_map] at hx
  obtain ⟨s, _, rfl⟩ := hx
  positivity

/-- Unfolding one cons of `boundary`. -/
theorem boundary_cons_succ (s : Stage) (rest : List Stage) (k : ℕ) :
    boundary (s :: rest) (k + 1) = (s.duration : ℚ) + boundary rest k := by
  simp [boundary]

/-- The `(k+1)`-st boundary is the `k`-th boundary plus stage `k`'s
duration. -/
theorem boundary_succ_eq (stages : List Stage) (k : ℕ)
    (hk : k < stages.length) :
    boundary stages (k + 1) =
      boundary stages k + ((stages.get ⟨k, hk⟩).duration : ℚ) := by
  induction stages generalizing k with
  | nil => simp at hk
  | cons s rest ih =>
    cases k with
    | zero => simp [boundary]
    | succ j =>
      rw [boundary_cons_succ, boundary_cons_succ,
        ih j (by simpa using hk)]
      simp [List.get]
      ring

/-- The start value of stage `k+1` is the ending target of stage `k`. -/
theorem stageStartTarget_succ (stages : List Stage) (v : ℚ) (k : ℕ)
    (hk : k < stages.length) :
    stageStartTarget v stages (k + 1) =
      ((stages.get ⟨k, hk⟩).target : ℚ) := by
  induction stages generalizing v k with
  | nil => simp at hk
  | cons s rest ih =>
    cases k with
    | zero =>
      cases rest with
      | nil => rfl
      | cons s2 r2 => rfl
    | succ j => exact ih _ j (by simpa using hk)

/-- Within stage `k`, the curve is the linear interpolation between the
stage's start value and its target. -/
theorem rampingTarget_interp (stages : List Stage) :
    ∀ (v : ℚ) (k : ℕ) (hk : k < stages.length) (τ : ℚ),
      (∀ s ∈ stages, 0 < s.duration) → 0 ≤ τ →
      τ ≤ ((stages.get ⟨k, hk⟩).duration : ℚ) →
      rampingTarget v stages (boundary stages k + τ) =
        stageStartTarget v stages k +
          (((stages.get ⟨k, hk⟩).target : ℚ) - stageStartTarget v stages k) *
            τ / ((stages.get ⟨k, hk⟩).duration : ℚ) := by
  induction stages with
  | nil =>
    intro v k hk
    simp at hk
  | cons s rest ih =>
    intro v k hk τ hpos h0 hle
    cases k with
    | zero =>
      have hb : boundary (s :: rest) 0 = 0 := rfl
      rw [hb, zero_add]
      simp only [rampingTarget, stageStartTarget]
      rw [if_pos (by simpa using hle)]
      simp [List.get]
    | succ j =>
      have hd : 0 < s.duration := hpos s (List.mem_cons_self _ _)
      have hrec : boundary (s :: rest) (j + 1) + τ =
          (s.duration : ℚ) + (boundary rest j + τ) := by
        rw [boundary_cons_succ]; ring
      rw [hrec, rampingTarget_shift v s rest hd _
        (add_nonneg (boundary_nonneg _ _) h0)]
      exact ih (s.target : ℚ) j (by simpa using hk) τ
        (fun x hx => hpos x (List.mem_cons_of_mem _ hx)) h0
        (by simpa using hle)

/-- C3 — Ramping-target continuity: with start value `t0` and positive
stage durations, the piecewise-linear target curve evaluates to `t0` at
elapsed time 0; at each stage-boundary time it equals the ending target of
the stage before it, which is simultaneously the start value of the stage
after it; and inside each stage it is the linear interpolation between the
surrounding stage endpoints. -/
theorem ramping_target_continuity (t0 : ℚ) (stages : List Stage)
    (hpos : ∀ s ∈ stages, 0 < s.duration) :
    rampingTarget t0 stages 0 = t0 ∧
    (∀ (k : ℕ) (hk : k < stages.length),
      rampingTarget t0 stages (boundary stages (k + 1)) =
        ((stages.get ⟨k, hk⟩).target : ℚ) ∧
      stageStartTarget t0 stages (k + 1) =
        ((stages.get ⟨k, hk⟩).target : ℚ)) ∧
    (∀ (k : ℕ) (hk : k < stages.length) (τ : ℚ), 0 ≤ τ →
      τ ≤ ((stages.get ⟨k, hk⟩).duration : ℚ) →
      rampingTarget t0 stages (boundary stages k + τ) =
        stageStartTarget t0 stages k +
          (((stages.get ⟨k, hk⟩).target : ℚ) - stageStartTarget t0 stages k) *
            τ / ((stages.get ⟨k, hk⟩).duration : ℚ)) := by
  refine ⟨rampingTarget_zero t0 stages, ?_, ?_⟩
  · intro k hk
    have hdq : (0 : ℚ) < ((stages.get ⟨k, hk⟩).duration : ℚ) := by
      exact_mod_cast hpos _ (stages.get_mem k hk)
    constructor
    · rw [boundary_succ_eq stages k hk,
        rampingTarget_interp stages t0 k hk _ hpos (le_of_lt hdq) le_rfl,
        mul_div_assoc, div_self hdq.ne', mul_one]
      ring
    · exact stageStartTarget_succ stages t0 k hk
  · intro k hk τ h0 hle
    exact rampingTarget_interp stages t0 k hk τ hpos h0 hle

/-- Witness for C3 at the `load_test` stage list of `src/restaurant.js`:
start value 0; the curve is 0 at time 0, 50 at the end of the ramp-up
stage, and 0 at the end of the run. -/
theorem ramping_target_continuity_witness :
    rampingTarget 0 load_test.stages 0 = 0 ∧
    rampingTarget 0 load_test.stages (boundary load_test.stages 1) = 50 ∧
    rampingTarget 0 load_test.stages (boundary load_test.stages 3) = 0 := by
  have h := ramping_target_continuity 0 load_test.stages (by decide)
  refine ⟨h.1, ?_, ?_⟩
  · have h1 := (h.2.1 0 (by decide)).1
    simpa [load_test] using h1
  · have h2 := (h.2.1 2 (by decide)).1
    simpa [load_test] using h2

/-- C2 — Rate-metric aggregation is order- and concurrency-invariant: any
recording order containing `N` truthy and `M` falsy observations
(`N + M > 0`) snapshots to the rate `N/(N+M)`, and the aggregate is
invariant under every permutation of the recording order. -/
theorem rate_aggregation_invariant (l : List Bool) (N M : ℕ)
    (hN : l.count true = N) (hM : l.count false = M) (hpos : 0 < N + M) :
    rateValue l = (N : ℚ) / ((N : ℚ) + (M : ℚ)) ∧
    ∀ l' : List Bool, l.Perm l' →
      rateValue l' = (N : ℚ) / ((N : ℚ) + (M : ℚ)) := by
  have hlen : l.length = N + M := by
    rw [← hN, ← hM, count_true_add_count_false]
  constructor
  · unfold rateValue
    rw [hN, hlen]
    push_cast
    ring
  · intro l' hperm
    have hN' : l'.count true = N := by rw [← hperm.count_eq, hN]
    have hlen' : l'.length = N + M := by rw [← hperm.length_eq, hlen]
    unfold rateValue
    rw [hN', hlen']
    push_cast
    ring

/-- Witness for C2: two truthy and one falsy recordings in the order
true, false, true report the rate 2/3, and so does any permutation. -/
theorem rate_aggregation_invariant_witness :
    rateValue [true, false, true] = (2 : ℚ) / ((2 : ℚ) + (1 : ℚ)) ∧
    ∀ l' : List Bool, List.Perm [true, false, true] l' →
      rateValue l' = (2 : ℚ) / ((2 : ℚ) + (1 : ℚ)) :=
  rate_aggregation_invariant [true, false, true] 2 1 rfl rfl (by decide)

/-- If the in-flight count is within the ceiling, it stays within through
any sampled event sequence. -/
theorem inflight_le_of_le (cap : ℕ) :
    ∀ (events : List SchedEvent) (s : ExecState), s.inFlight ≤ cap →
      (events.foldl (stepExec cap) s).inFlight ≤ cap := by
  intro events
  induction events with
  | nil => intro s h; exact h
  | cons e rest ih =>
    intro s h
    apply ih
    cases e with
    | start =>
      by_cases hc : s.inFlight < cap
      · simp only [stepExec, if_pos hc]
        show s.inFlight + 1 ≤ cap
        omega
      · simp only [stepExec, if_neg hc]
        exact h
    | finish =>
      show s.inFlight - 1 ≤ cap
      omega

/-- C4 — Concurrency cap invariant: for every scenario configuration and
every sampled scheduling event sequence, the executor, guarded by the
configured maximum of its strategy (the concurrency target for
constant/ramping-VU executors and the `maxVUs` pool cap for arrival-rate
executors), never has more in-flight iterations than that maximum. -/
theorem inflight_never_exceeds_cap (c : ScenarioConfig)
    (events : List SchedEvent) :
    (runExec (configuredCap c) events).inFlight ≤ configuredCap c :=
  inflight_le_of_le (configuredCap c) events ⟨0, 0⟩ (Nat.zero_le _)

/-- C6 — Percentile evaluation: a trend metric holding exactly the ten
observations 100, 200, ..., 1000 (ms) reports `p(95) = 955`, and the
threshold expression `p(95)<500` bound to it evaluates to failed (both
during the run and at the end of the run). -/
theorem percentile_threshold_eval :
    percentile 95 decileObs = 955 ∧
    evalThreshold p95lt500 decileObs = .failed ∧
    evalThresholdAtEnd p95lt500 decileObs = .failed := by
  have h8 : Int.toNat 8 = 8 := rfl
  have h : percentile 95 decileObs = 955 := by
    norm_num [percentile, decileObs, List.insertionSort, List.orderedInsert,
      h8]
  have hne : decileObs.isEmpty = false := rfl
  refine ⟨h, ?_, ?_⟩
  · simp only [evalThreshold, hne, Bool.false_eq_true, if_false, p95lt500,
      aggValue, h, compareQ]
    norm_num
  · simp only [evalThresholdAtEnd, evalThreshold, hne, Bool.false_eq_true,
      if_false, p95lt500, aggValue, h, compareQ]
    norm_num

/-- C7 — Fail-closed threshold on empty metrics: the declared
`functional_checks` rate of the functional-test script has a threshold
bound to it but is recorded by no code path of the script; a threshold
expression over a metric with zero observations evaluates to indeterminate
(not-yet-failing) during the run, and at run end zero observations evaluate
to failed. -/
theorem fail_closed_empty_metric :
    "functional_checks" ∉ functionalScriptRecordedMetrics ∧
    ("functional_checks",
      (⟨.rate, .ge, 1⟩ : ThresholdExpr)) ∈ functionalScriptThresholds ∧
    (∀ e : ThresholdExpr, evalThreshold e [] = .indeterminate) ∧
    (∀ e : ThresholdExpr, evalThresholdAtEnd e [] = .failed) := by
  refine ⟨by decide, List.mem_cons_self _ _, ?_, ?_⟩
  · intro e
    simp [evalThreshold]
  · intro e
    simp [evalThresholdAtEnd]

/-- C1 — Lifecycle atomicity: if setup raises, the run aborts with zero
journey iterations started and teardown never invoked; and whatever the
teardown callback does (raise or return), the metrics collected before
teardown and the threshold verdicts of the report are unchanged. -/
theorem lifecycle_atomicity (su : Except String SetupData)
    (journey : SetupData → List Obs) (n : ℕ)
    (thresholds : List (String × ThresholdExpr))
    (td td2 : SetupData → Except String Unit) :
    (∀ e : String, su = .error e →
      (runLifecycle su journey n thresholds td).finalState = .aborted ∧
      (runLifecycle su journey n thresholds td).iterationsStarted = 0 ∧
      (runLifecycle su journey n thresholds td).teardownInvoked = false) ∧
    (∀ ctx : SetupData, su = .ok ctx →
      (runLifecycle su journey n thresholds td).metrics =
        (runLifecycle su journey n thresholds td2).metrics ∧
      (runLifecycle su journey n thresholds td).verdicts =
        (runLifecycle su journey n thresholds td2).verdicts) := by
  constructor
  · rintro e rfl
    simp [runLifecycle]
  · rintro ctx rfl
    rcases h1 : td ctx with e1 | u1 <;> rcases h2 : td2 ctx with e2 | u2 <;>
      simp [runLifecycle, h1, h2]

/-- Witness for C1: with the failing login response of
`src/restaurant.js` setup (status 500, slow, empty body) the run aborts
with no iterations and no teardown; with a successful setup, a raising
teardown leaves the metrics equal to those of a clean teardown. -/
theorem lifecycle_atomicity_witness :
    (runLifecycle (setupRestaurant ⟨500, 600, ""⟩ (JSVal.str "tok"))
        (fun _ => []) 5 [] (fun _ => .ok ())).iterationsStarted = 0 ∧
    (runLifecycle (setupRestaurant ⟨500, 600, ""⟩ (JSVal.str "tok"))
        (fun _ => []) 5 [] (fun _ => .ok ())).teardownInvoked = false ∧
    (runLifecycle (.ok ⟨JSVal.str "tok"⟩) (fun _ => [⟨"errors", 1⟩]) 2 []
        (fun _ => .error "teardown boom")).metrics =
      (runLifecycle (.ok ⟨JSVal.str "tok"⟩) (fun _ => [⟨"errors", 1⟩]) 2 []
        (fun _ => .ok ())).metrics := by
  have hsu : setupRestaurant ⟨500, 600, ""⟩ (JSVal.str "tok") =
      .error "Login failed" := by
    simp [setupRestaurant, checkResponse, checkResponseChecks]
  have h1 := (lifecycle_atomicity
    (setupRestaurant ⟨500, 600, ""⟩ (JSVal.str "tok")) (fun _ => []) 5 []
    (fun _ => .ok ()) (fun _ => .ok ())).1 "Login failed" hsu
  have h2 := (lifecycle_atomicity (.ok ⟨JSVal.str "tok"⟩)
    (fun _ => [⟨"errors", 1⟩]) 2 [] (fun _ => .error "teardown boom")
    (fun _ => .ok ())).2 ⟨JSVal.str "tok"⟩ rfl
  exact ⟨h1.2.1, h1.2.2, h2.1⟩

/-- C5 — Iteration-failure absorption: a journey callback that raises is
caught by the Iteration Runner and recorded as an iteration-level error
observation, never propagated; with a valid configuration and successful
setup the scheduler completes every scheduled iteration regardless of
individual failures; a configuration-level fault or a setup failure aborts
the scenario with zero iterations started. -/
theorem iteration_failure_absorption (c : ScenarioConfig) (ctx : SetupData)
    (cbs : List (SetupData → Except String (List Obs))) :
    (∀ (cb : SetupData → Except String (List Obs)) (e : String),
      cb ctx = .error e → runIteration cb ctx = [⟨"errors", 1⟩]) ∧
    (validConfig c = true →
      (runScenario c (.ok ctx) cbs).iterationsCompleted = cbs.length ∧
      (runScenario c (.ok ctx) cbs).aborted = false) ∧
    (validConfig c = false →
      (runScenario c (.ok ctx) cbs).iterationsStarted = 0 ∧
      (runScenario c (.ok ctx) cbs).aborted = true) ∧
    (∀ e : String,
      (runScenario c (.error e) cbs).iterationsStarted = 0 ∧
      (runScenario c (.error e) cbs).aborted = true) := by
  refine ⟨?_, ?_, ?_, ?_⟩
  · intro cb e he
    simp [runIteration, he]
  · intro hv
    simp [runScenario, hv]
  · intro hv
    simp [runScenario, hv]
  · intro e
    simp [runScenario]

/-- Witness for C5 at the `smoke_test` configuration of
`src/restaurant.js`: one scheduled callback that raises still counts as a
completed iteration and the scenario is not aborted. -/
theorem iteration_failure_absorption_witness :
    (runScenario smoke_test (.ok ⟨JSVal.str "t"⟩)
      [fun _ => .error "boom"]).iterationsCompleted = 1 ∧
    (runScenario smoke_test (.ok ⟨JSVal.str "t"⟩)
      [fun _ => .error "boom"]).aborted = false := by
  have h := (iteration_failure_absorption smoke_test ⟨JSVal.str "t"⟩
    [fun _ => .error "boom"]).2.1 (by decide)
  simpa using h

/-- C8 — Shared-iterations termination: with the `functional_test`
configuration of `src/unnamed/part_001` (shared-iterations, vus 1,
iterations 1, maxDuration 1h), a single iteration of any duration shorter
than the maximum runs exactly once and the executor reaches its terminal
state at that iteration's completion time, strictly before the configured
maximum duration elapses. -/
theorem shared_iterations_single (d : ℕ)
    (hlt : d < functional_test.maxDurationSec.getD 0 * 1000) :
    sharedIterRun (functional_test.iterations.getD 0)
      (functional_test.maxDurationSec.getD 0 * 1000) d = (1, d) ∧
    d < functional_test.maxDurationSec.getD 0 * 1000 := by
  refine ⟨?_, hlt⟩
  show sharedIterRun 1 3600000 d = (1, d)
  simp [sharedIterRun, sharedIterLoop]

/-- Witness for C8: a 1-second (1000 ms) iteration runs exactly once and
the executor terminates at 1000 ms, not at the 1-hour maximum. -/
theorem shared_iterations_single_witness :
    sharedIterRun (functional_test.iterations.getD 0)
      (functional_test.maxDurationSec.getD 0 * 1000) 1000 = (1, 1000) ∧
    1000 < functional_test.maxDurationSec.getD 0 * 1000 :=
  shared_iterations_single 1000 (by decide)

/-- C9 — Executor-name equivalence: "ramping-order-rate" parses to the same
Ramping Arrival Rate strategy as "ramping-arrival-rate", and two scenario
configurations differing only in which of the two names they use (equal
startRate, timeUnit, preAllocatedVUs, maxVUs and stages) have identical
scheduling behavior (same arrival-rate target curve and same pool cap). -/
theorem executor_name_equivalence :
    parseExecutor "ramping-order-rate" =
      some ExecutorKind.rampingArrivalRate ∧
    parseExecutor "ramping-arrival-rate" =
      some ExecutorKind.rampingArrivalRate ∧
    ∀ c1 c2 : ScenarioConfig, c1.executor = "ramping-order-rate" →
      c2.executor = "ramping-arrival-rate" →
      c1.startRate = c2.startRate → c1.timeUnitSec = c2.timeUnitSec →
      c1.preAllocatedVUs = c2.preAllocatedVUs → c1.maxVUs = c2.maxVUs →
      c1.stages = c2.stages →
      schedulingBehavior c1 = schedulingBehavior c2 := by
  refine ⟨by decide, by decide, ?_⟩
  intro c1 c2 h1 h2 hr ht hp hm hs
  have e1 : parseExecutor c1.executor =
      some ExecutorKind.rampingArrivalRate := by rw [h1]; decide
  have e2 : parseExecutor c2.executor =
      some ExecutorKind.rampingArrivalRate := by rw [h2]; decide
  unfold schedulingBehavior arrivalRateTarget configuredCap
  rw [e1, e2, hr, hm, hs]

/-- Witness for C9: the `stress_test` of `src/unnamed/part_002` (executor
"ramping-order-rate") behaves identically to the same block renamed to
"ramping-arrival-rate". -/
theorem executor_name_equivalence_witness :
    schedulingBehavior stress_test_order =
      schedulingBehavior
        { stress_test_order with executor := "ramping-arrival-rate" } :=
  executor_name_equivalence.2.2 stress_test_order
    { stress_test_order with executor := "ramping-arrival-rate" }
    rfl rfl rfl rfl rfl rfl rfl

/-- C10 — Teardown guard: in all three scripts, if the setup result is
null/undefined or its `authToken` is falsy, teardown issues no HTTP request;
otherwise it issues exactly one DELETE to the `/cleanup` endpoint carrying
the bearer token. -/
theorem teardown_guard (data : Option SetupData) :
    ((data = none ∨ ∃ d, data = some d ∧ truthy d.authToken = false) →
      teardownRestaurant data = [] ∧ teardownCustomer data = [] ∧
      teardownFunctional data = []) ∧
    (∀ d : SetupData, data = some d → truthy d.authToken = true →
      teardownRestaurant data =
        [cleanupRequest d.authToken (some "cleanup")] ∧
      teardownCustomer data = [cleanupRequest d.authToken none] ∧
      teardownFunctional data = [cleanupRequest d.authToken none]) := by
  constructor
  · rintro (rfl | ⟨d, rfl, hf⟩)
    · simp [teardownRestaurant, teardownCustomer, teardownFunctional]
    · simp [teardownRestaurant, teardownCustomer, teardownFunctional, hf]
  · rintro d rfl ht
    simp [teardownRestaurant, teardownCustomer, teardownFunctional, ht]

/-- Witness for C10: a present auth token yields exactly the one cleanup
DELETE in `src/restaurant.js`; an absent setup result yields none. -/
theorem teardown_guard_witness :
    teardownRestaurant (some ⟨JSVal.str "tok"⟩) =
      [cleanupRequest (JSVal.str "tok") (some "cleanup")] ∧
    teardownRestaurant none = [] :=
  ⟨((teardown_guard (some ⟨JSVal.str "tok"⟩)).2 ⟨JSVal.str "tok"⟩ rfl
      (by decide)).1,
    ((teardown_guard none).1 (Or.inl rfl)).1⟩

end K6
